import Mathlib

/-!
Verification of the `ai-doctor-ml` inference service
(`src/supabase/functions/ai-doctor-ml/index.py`), a single-route Flask
application.  The embedding below translates the module-level artifact
loading, the `predict` request handler, and the route registration into
Lean, modelling the Python runtime behaviours the handler can trigger
(Flask's `get_json` error responses, `AttributeError` on `.get` of a
non-dict, `IndexError` on `[0]` of an empty prediction array).
-/

namespace AiDoctorMl

/-- A parsed JSON value, as produced by Flask's `request.get_json()`
(Python `None`/`bool`/number/`str`/`list`/`dict`).  Numbers are modelled
as integers; no claim depends on fractional values. -/
inductive Json where
  | null : Json
  | bool (b : Bool) : Json
  | num (n : Int) : Json
  | str (s : String) : Json
  | arr (xs : List Json) : Json
  | obj (kvs : List (String × Json)) : Json

/-- Lookup in a parsed JSON object, i.e. a Python `dict`.  Python's JSON
parser keeps the last occurrence of a duplicate key, so the lookup
prefers later entries. -/
def dictGet (kvs : List (String × Json)) (k : String) : Option Json :=
  match kvs with
  | [] => none
  | (k0, v0) :: rest =>
    match dictGet rest k with
    | some v => some v
    | none => if k0 = k then some v0 else none

/-- Python `dict.get(k, d)`: the stored value when the key is present,
the default otherwise. -/
def dictGetD (kvs : List (String × Json)) (k : String) (d : Json) : Json :=
  (dictGet kvs k).getD d

/-- The body of an incoming `POST /` request, as seen by
`request.get_json()`: absent (or not declared as JSON), syntactically
invalid JSON, or a parsed JSON value. -/
inductive RequestBody where
  | absent : RequestBody
  | invalid (raw : String) : RequestBody
  | json (v : Json) : RequestBody

/-- Flask's `request.get_json()`: a missing/non-JSON body raises
`UnsupportedMediaType` (HTTP 415), malformed JSON raises `BadRequest`
(HTTP 400); otherwise the parsed value is returned.  The error branch
carries the HTTP status of the framework's error response. -/
def getJson : RequestBody → Except Nat Json
  | RequestBody.absent => Except.error 415
  | RequestBody.invalid _ => Except.error 400
  | RequestBody.json v => Except.ok v

/-- An uncaught Python exception inside the handler. -/
inductive PyErr where
  | attributeError : PyErr
  | indexError : PyErr
deriving DecidableEq

/-- Outcome of one request: a `jsonify` response with a status code, a
framework error response raised by `get_json` (HTML body, status 415 or
400), or an uncaught exception (which Flask turns into a 500 Internal
Server Error page, not a JSON body). -/
inductive HResp where
  | resp (status : Nat) (body : Json) : HResp
  | frameworkError (status : Nat) : HResp
  | crash (e : PyErr) : HResp

/-- The loaded vectorizer artifact: `transform` maps a list of raw
documents to a feature matrix (one row per document).  The element type
is `Json` because the handler passes whatever JSON value `data.get`
returned. -/
structure Vectorizer (Feat : Type) where
  transform : List Json → Feat

/-- The loaded classifier artifact: `predict` maps a feature matrix to
an array of labels. -/
structure Classifier (Feat Label : Type) where
  predict : Feat → List Label

/-- The JSON body of the fixed error response. -/
def modelNotLoadedBody : Json :=
  Json.obj [("error", Json.str "Model not loaded")]

/-- The `predict` request handler.  `model` and `vectorizer` are the
module globals (each `none` when loading failed); `strFn` is Python's
`str` specialised to the label type.  Mirrors the source line by line:
the `None` guard, `request.get_json()`, `data.get("symptoms", "")`,
`vectorizer.transform([symptoms])`, `str(model.predict(X)[0])`,
`jsonify({"prediction": ...})`. -/
def predict {Feat Label : Type} (model : Option (Classifier Feat Label))
    (vectorizer : Option (Vectorizer Feat)) (strFn : Label → String)
    (body : RequestBody) : HResp :=
  match model, vectorizer with
  | none, _ => HResp.resp 500 modelNotLoadedBody
  | some _, none => HResp.resp 500 modelNotLoadedBody
  | some m, some v =>
    match getJson body with
    | Except.error status => HResp.frameworkError status
    | Except.ok data =>
      match data with
      | Json.obj kvs =>
        let symptoms := dictGetD kvs "symptoms" (Json.str "")
        let X := v.transform [symptoms]
        match (m.predict X).head? with
        | some l => HResp.resp 200 (Json.obj [("prediction", Json.str (strFn l))])
        | none => HResp.crash PyErr.indexError
      | _ => HResp.crash PyErr.attributeError

/-- A call made by the handler to one of the loaded artifacts. -/
inductive Call (Feat : Type) where
  | transform (docs : List Json) : Call Feat
  | predictCall (x : Feat) : Call Feat

/-- The handler instrumented with a trace of artifact invocations, used
to state that the artifacts are (or are not) invoked on a given path.
Identical control flow to `predict`. -/
def predictTraced {Feat Label : Type} (model : Option (Classifier Feat Label))
    (vectorizer : Option (Vectorizer Feat)) (strFn : Label → String)
    (body : RequestBody) : HResp × List (Call Feat) :=
  match model, vectorizer with
  | none, _ => (HResp.resp 500 modelNotLoadedBody, [])
  | some _, none => (HResp.resp 500 modelNotLoadedBody, [])
  | some m, some v =>
    match getJson body with
    | Except.error status => (HResp.frameworkError status, [])
    | Except.ok data =>
      match data with
      | Json.obj kvs =>
        let symptoms := dictGetD kvs "symptoms" (Json.str "")
        let X := v.transform [symptoms]
        match (m.predict X).head? with
        | some l => (HResp.resp 200 (Json.obj [("prediction", Json.str (strFn l))]),
            [Call.transform [symptoms], Call.predictCall X])
        | none => (HResp.crash PyErr.indexError,
            [Call.transform [symptoms], Call.predictCall X])
      | _ => (HResp.crash PyErr.attributeError, [])

/-- Does a response have one of the two shapes the interface declares:
HTTP 200 with `{"prediction": string}` or HTTP 500 with exactly
`{"error": "Model not loaded"}`? -/
def isTwoShapes : HResp → Bool
  | HResp.resp 200 (Json.obj [("prediction", Json.str _)]) => true
  | HResp.resp 500 (Json.obj [("error", Json.str "Model not loaded")]) => true
  | _ => false

/-- How the framework dispatches a request: run the `predict` handler,
answer `OPTIONS` automatically (Flask's automatic `OPTIONS` handling on
a registered rule), reject with 405 Method Not Allowed, or 404 Not
Found.  The source registers exactly one rule, `@app.route("/",
methods=["POST"])`. -/
inductive Dispatch where
  | runPredict : Dispatch
  | autoOptions : Dispatch
  | methodNotAllowed : Dispatch
  | notFound : Dispatch
deriving DecidableEq

/-- The application's routing function over the single registered rule. -/
def appRoute (path method : String) : Dispatch :=
  if path = "/" then
    if method = "POST" then Dispatch.runPredict
    else if method = "OPTIONS" then Dispatch.autoOptions
    else Dispatch.methodNotAllowed
  else Dispatch.notFound

/-- The module globals `model` and `vectorizer` (`none` = load failed). -/
structure ServerState (Feat Label : Type) where
  model : Option (Classifier Feat Label)
  vectorizer : Option (Vectorizer Feat)

/-- The module-level `try`/`except` block: `model = joblib.load(...)`
runs first, then `vectorizer = joblib.load(...)`; if either raises, the
`except` branch sets BOTH globals to `None`.  Each argument is the
outcome of the corresponding `joblib.load` call (`Except.error` =
raised). -/
def initGlobals {Feat Label : Type} (loadModel : Except String (Classifier Feat Label))
    (loadVectorizer : Except String (Vectorizer Feat)) : ServerState Feat Label :=
  match loadModel with
  | Except.error _ => ⟨none, none⟩
  | Except.ok m =>
    match loadVectorizer with
    | Except.error _ => ⟨none, none⟩
    | Except.ok v => ⟨some m, some v⟩

/-- One service step: handle a request against the current globals.  The
handler only reads `model` and `vectorizer` (the source contains no
`global` statement and no assignment to them), so the state is returned
unchanged. -/
def handleRequest {Feat Label : Type} (strFn : Label → String)
    (s : ServerState Feat Label) (body : RequestBody) :
    ServerState Feat Label × HResp :=
  (s, predict s.model s.vectorizer strFn body)

/-- Run a sequence of requests, threading the server state. -/
def runRequests {Feat Label : Type} (strFn : Label → String)
    (s : ServerState Feat Label) : List RequestBody → ServerState Feat Label
  | [] => s
  | b :: bs => runRequests strFn (handleRequest strFn s b).fst bs

/-! ## Sanity lemmas -/

/-- The instrumented handler computes the same response as the plain
handler; it only adds the trace. -/
theorem predictTraced_fst {Feat Label : Type} (model : Option (Classifier Feat Label))
    (vectorizer : Option (Vectorizer Feat)) (strFn : Label → String)
    (body : RequestBody) :
    (predictTraced model vectorizer strFn body).fst
      = predict model vectorizer strFn body := by
  cases model with
  | none => rfl
  | some m =>
    cases vectorizer with
    | none => rfl
    | some v =>
      cases body with
      | absent => rfl
      | invalid raw => rfl
      | json j =>
        cases j with
        | null => rfl
        | bool b => rfl
        | num n => rfl
        | str s => rfl
        | arr xs => rfl
        | obj kvs =>
          cases hl : (m.predict (v.transform [dictGetD kvs "symptoms" (Json.str "")])).head? with
          | none => simp [predict, predictTraced, getJson, hl]
          | some l => simp [predict, predictTraced, getJson, hl]

/-- Handling a request never changes the globals, so running any
sequence of requests leaves the server state fixed. -/
theorem runRequests_eq {Feat Label : Type} (strFn : Label → String)
    (s : ServerState Feat Label) (bs : List RequestBody) :
    runRequests strFn s bs = s := by
  induction bs with
  | nil => rfl
  | cons b bs ih => simpa [runRequests, handleRequest] using ih

/-! ## Claims -/

/-- C1: with both artifacts loaded, a `POST /` whose JSON body is a
dictionary mapping "symptoms" to a value `s` yields HTTP 200 with body
`{"prediction": p}` where `p` is the `str` form of the first element of
`model.predict(vectorizer.transform([s]))`. -/
theorem claim1_prediction_response {Feat Label : Type}
    (m : Classifier Feat Label) (v : Vectorizer Feat) (strFn : Label → String)
    (kvs : List (String × Json)) (s : Json) (l : Label)
    (hget : dictGet kvs "symptoms" = some s)
    (hl : (m.predict (v.transform [s])).head? = some l) :
    predict (some m) (some v) strFn (RequestBody.json (Json.obj kvs))
      = HResp.resp 200 (Json.obj [("prediction", Json.str (strFn l))]) := by
  simp [predict, getJson, dictGetD, hget, hl]

/-- Witness for C1: a concrete vectorizer/classifier pair and the body
`{"symptoms": "fever"}` produce `{"prediction": "Flu"}` with status 200. -/
theorem claim1_witness :
    predict (some (Classifier.mk (fun _ : List Json => ["Flu"])))
        (some (Vectorizer.mk (fun docs => docs))) (fun s => s)
        (RequestBody.json (Json.obj [("symptoms", Json.str "fever")]))
      = HResp.resp 200 (Json.obj [("prediction", Json.str "Flu")]) :=
  claim1_prediction_response _ _ _ _ _ _ rfl rfl

/-- C2: when loading failed (either global is `None`), every request
gets HTTP 500 with exactly `{"error": "Model not loaded"}`, whatever the
body, and neither artifact is invoked (empty call trace). -/
theorem claim2_unloaded_fixed_error {Feat Label : Type}
    (model : Option (Classifier Feat Label)) (vectorizer : Option (Vectorizer Feat))
    (strFn : Label → String) (body : RequestBody)
    (h : model = none ∨ vectorizer = none) :
    predict model vectorizer strFn body = HResp.resp 500 modelNotLoadedBody
    ∧ (predictTraced model vectorizer strFn body).snd = [] := by
  rcases h with h | h
  · subst h; exact ⟨rfl, rfl⟩
  · subst h; cases model <;> exact ⟨rfl, rfl⟩

/-- Witness for C2: with both globals `None` and an arbitrary body, the
response is the fixed 500 error and the trace is empty. -/
theorem claim2_witness :
    @predict Unit Unit none none (fun _ => "") (RequestBody.json Json.null)
        = HResp.resp 500 modelNotLoadedBody
    ∧ (@predictTraced Unit Unit none none (fun _ => "") (RequestBody.json Json.null)).snd
        = [] :=
  claim2_unloaded_fixed_error none none _ _ (Or.inl rfl)

/-- C3: with both artifacts loaded, a dictionary body without a
"symptoms" key is not an error: the handler transforms the empty string
and returns HTTP 200 with the resulting prediction. -/
theorem claim3_missing_key_empty_string {Feat Label : Type}
    (m : Classifier Feat Label) (v : Vectorizer Feat) (strFn : Label → String)
    (kvs : List (String × Json)) (l : Label)
    (hget : dictGet kvs "symptoms" = none)
    (hl : (m.predict (v.transform [Json.str ""])).head? = some l) :
    predictTraced (some m) (some v) strFn (RequestBody.json (Json.obj kvs))
      = (HResp.resp 200 (Json.obj [("prediction", Json.str (strFn l))]),
         [Call.transform [Json.str ""], Call.predictCall (v.transform [Json.str ""])]) := by
  simp [predictTraced, getJson, dictGetD, hget, hl]

/-- Witness for C3: a concrete pair and the body `{"name": "bo"}` (no
"symptoms" key) transform `""` and answer 200. -/
theorem claim3_witness :
    predictTraced (some (Classifier.mk (fun _ : List Json => ["Cold"])))
        (some (Vectorizer.mk (fun docs => docs))) (fun s => s)
        (RequestBody.json (Json.obj [("name", Json.str "bo")]))
      = (HResp.resp 200 (Json.obj [("prediction", Json.str "Cold")]),
         [Call.transform [Json.str ""], Call.predictCall [Json.str ""]]) :=
  claim3_missing_key_empty_string _ _ _ _ _ rfl rfl

/-- C4: a startup load failure is permanent: starting from the
failed-load state (both globals `None`), any sequence of requests leaves
the state unchanged and the next request still gets the fixed HTTP 500
error — no step retries or reloads the artifacts. -/
theorem claim4_failure_permanent {Feat Label : Type} (strFn : Label → String)
    (bs : List RequestBody) (b : RequestBody) :
    runRequests strFn (⟨none, none⟩ : ServerState Feat Label) bs = ⟨none, none⟩
    ∧ (handleRequest strFn (runRequests strFn (⟨none, none⟩ : ServerState Feat Label) bs) b).snd
        = HResp.resp 500 modelNotLoadedBody := by
  refine ⟨runRequests_eq strFn _ bs, ?_⟩
  rw [runRequests_eq]
  rfl

/-- C5 counterexample: with both artifacts loaded, a request whose body
is the JSON value `null` makes `data.get` raise `AttributeError`
(`None` has no attribute `get`), so Flask answers with a 500 Internal
Server Error page — neither HTTP 200 `{"prediction": ...}` nor the fixed
JSON error body. The claim that every response has one of the two
declared shapes is therefore false. -/
theorem claim5_counterexample :
    isTwoShapes (predict (some (Classifier.mk (fun _ : Unit => [()])))
        (some (Vectorizer.mk (fun _ => ()))) (fun _ => "Flu")
        (RequestBody.json Json.null)) = false := rfl

/-- C5 amended: for requests whose body is a JSON dictionary — and
provided the classifier returns a non-empty prediction array — the
response has one of the two declared shapes; bodies that are absent,
invalid JSON, or a non-dictionary JSON value instead produce a framework
error response (415/400) or an uncaught-exception 500 page. -/
theorem claim5_amended_dict_two_shapes {Feat Label : Type}
    (model : Option (Classifier Feat Label)) (vectorizer : Option (Vectorizer Feat))
    (strFn : Label → String) (kvs : List (String × Json))
    (h : ∀ (m : Classifier Feat Label) (x : Feat), model = some m → m.predict x ≠ []) :
    isTwoShapes (predict model vectorizer strFn (RequestBody.json (Json.obj kvs))) = true := by
  cases model with
  | none => rfl
  | some m =>
    cases vectorizer with
    | none => rfl
    | some v =>
      have hne := h m (v.transform [dictGetD kvs "symptoms" (Json.str "")]) rfl
      cases hl : (m.predict (v.transform [dictGetD kvs "symptoms" (Json.str "")])).head? with
      | none => exact absurd (List.head?_eq_none_iff.mp hl) hne
      | some l =>
        have hp : predict (some m) (some v) strFn (RequestBody.json (Json.obj kvs))
            = HResp.resp 200 (Json.obj [("prediction", Json.str (strFn l))]) := by
          simp [predict, getJson, hl]
        rw [hp]
        rfl

/-- Witness for the amended C5: a concrete loaded pair and a dictionary
body give a response of one of the two shapes. -/
theorem claim5_witness :
    isTwoShapes (predict (some (Classifier.mk (fun _ : Unit => [()])))
        (some (Vectorizer.mk (fun _ => ()))) (fun _ => "Flu")
        (RequestBody.json (Json.obj []))) = true :=
  claim5_amended_dict_two_shapes _ _ _ _
    (fun m x hm => by injection hm with h1; subst h1; simp)

/-- C6: `POST` is the only method that reaches the `predict` handler at
"/", and "/" with `POST` is the only (path, method) pair the
application's routing sends to the handler. (For other methods on "/"
Flask answers itself: automatic `OPTIONS`, 405 otherwise; other paths
get 404.) -/
theorem claim6_post_only_route :
    (∀ method : String, method ≠ "POST" → appRoute "/" method ≠ Dispatch.runPredict)
    ∧ (∀ path method : String, appRoute path method = Dispatch.runPredict →
        path = "/" ∧ method = "POST") := by
  constructor
  · intro method hm
    unfold appRoute
    rw [if_pos rfl, if_neg hm]
    by_cases ho : method = "OPTIONS"
    · rw [if_pos ho]; intro hc; exact Dispatch.noConfusion hc
    · rw [if_neg ho]; intro hc; exact Dispatch.noConfusion hc
  · intro path method h
    unfold appRoute at h
    by_cases hp : path = "/"
    · rw [if_pos hp] at h
      by_cases hm : method = "POST"
      · exact ⟨hp, hm⟩
      · rw [if_neg hm] at h
        by_cases ho : method = "OPTIONS"
        · rw [if_pos ho] at h; exact absurd h (fun hc => Dispatch.noConfusion hc)
        · rw [if_neg ho] at h; exact absurd h (fun hc => Dispatch.noConfusion hc)
    · rw [if_neg hp] at h; exact absurd h (fun hc => Dispatch.noConfusion hc)

/-- Witness for C6: a `GET /` request is not dispatched to the handler. -/
theorem claim6_witness : appRoute "/" "GET" ≠ Dispatch.runPredict :=
  claim6_post_only_route.1 "GET" (by decide)

/-- C7: request handling is deterministic and state-free: a step never
writes the globals, and the response to a body is the same whatever
other requests were handled before it. -/
theorem claim7_stateless_deterministic {Feat Label : Type} (strFn : Label → String) :
    (∀ (s : ServerState Feat Label) (b : RequestBody), (handleRequest strFn s b).fst = s)
    ∧ (∀ (s : ServerState Feat Label) (pre1 pre2 : List RequestBody) (b : RequestBody),
        (handleRequest strFn (runRequests strFn s pre1) b).snd
          = (handleRequest strFn (runRequests strFn s pre2) b).snd) := by
  refine ⟨fun s b => rfl, fun s pre1 pre2 b => ?_⟩
  rw [runRequests_eq, runRequests_eq]

/-- C8: both-or-neither load invariant: after the module-level
`try`/`except`, `model` is `None` iff `vectorizer` is `None`, and the
handler's guard `model is None or vectorizer is None` is equivalent to
testing either global alone. -/
theorem claim8_both_or_neither {Feat Label : Type}
    (loadModel : Except String (Classifier Feat Label))
    (loadVectorizer : Except String (Vectorizer Feat)) :
    ((initGlobals loadModel loadVectorizer).model = none
        ↔ (initGlobals loadModel loadVectorizer).vectorizer = none)
    ∧ (((initGlobals loadModel loadVectorizer).model = none
        ∨ (initGlobals loadModel loadVectorizer).vectorizer = none)
        ↔ (initGlobals loadModel loadVectorizer).model = none)
    ∧ (((initGlobals loadModel loadVectorizer).model = none
        ∨ (initGlobals loadModel loadVectorizer).vectorizer = none)
        ↔ (initGlobals loadModel loadVectorizer).vectorizer = none) := by
  cases loadModel <;> cases loadVectorizer <;> simp [initGlobals]

/-- C9: indexing safety of `model.predict(X)[0]`: when the classifier
returns a non-empty array on the one-row input, the handler never hits
the `IndexError` branch; conversely a 200 response is only produced
when that array is non-empty. -/
theorem claim9_indexing_safety {Feat Label : Type}
    (m : Classifier Feat Label) (v : Vectorizer Feat) (strFn : Label → String)
    (kvs : List (String × Json)) :
    (m.predict (v.transform [dictGetD kvs "symptoms" (Json.str "")]) ≠ [] →
      predict (some m) (some v) strFn (RequestBody.json (Json.obj kvs))
        ≠ HResp.crash PyErr.indexError)
    ∧ (∀ body : Json,
        predict (some m) (some v) strFn (RequestBody.json (Json.obj kvs))
          = HResp.resp 200 body →
        m.predict (v.transform [dictGetD kvs "symptoms" (Json.str "")]) ≠ []) := by
  cases hl : (m.predict (v.transform [dictGetD kvs "symptoms" (Json.str "")])).head? with
  | none =>
    have he := List.head?_eq_none_iff.mp hl
    constructor
    · intro hne; exact absurd he hne
    · intro body hresp
      rw [show predict (some m) (some v) strFn (RequestBody.json (Json.obj kvs))
            = HResp.crash PyErr.indexError by simp [predict, getJson, hl]] at hresp
      exact HResp.noConfusion hresp
  | some l =>
    have hne : m.predict (v.transform [dictGetD kvs "symptoms" (Json.str "")]) ≠ [] := by
      intro he; rw [he] at hl; exact Option.noConfusion hl
    constructor
    · intro _
      simp [predict, getJson, hl]
    · intro body _
      exact hne

/-- Witness for C9: a concrete classifier returning a one-element array
never crashes with `IndexError` on a dictionary body. -/
theorem claim9_witness :
    predict (some (Classifier.mk (fun _ : Unit => ["Flu"])))
        (some (Vectorizer.mk (fun _ => ()))) (fun s => s)
        (RequestBody.json (Json.obj [])) ≠ HResp.crash PyErr.indexError :=
  (claim9_indexing_safety _ _ _ _).1 (by simp)

/-- C10: the "symptoms" value is not type-checked: whatever JSON value
`val` the dictionary maps "symptoms" to, the handler passes `val`
unchanged as the single element of the list given to
`vectorizer.transform`, and the classifier is then called on the
transform's result — no branch rejects a non-string value. -/
theorem claim10_value_not_typechecked {Feat Label : Type}
    (m : Classifier Feat Label) (v : Vectorizer Feat) (strFn : Label → String)
    (kvs : List (String × Json)) (val : Json)
    (hget : dictGet kvs "symptoms" = some val) :
    (predictTraced (some m) (some v) strFn (RequestBody.json (Json.obj kvs))).snd
      = [Call.transform [val], Call.predictCall (v.transform [val])] := by
  cases hl : (m.predict (v.transform [val])).head? with
  | none => simp [predictTraced, getJson, dictGetD, hget, hl]
  | some l => simp [predictTraced, getJson, dictGetD, hget, hl]

/-- Witness for C10: the non-string value `3` under "symptoms" is passed
unchanged to the vectorizer. -/
theorem claim10_witness :
    (predictTraced (some (Classifier.mk (fun x : List Json => x)))
        (some (Vectorizer.mk (fun docs => docs))) (fun _ => "")
        (RequestBody.json (Json.obj [("symptoms", Json.num 3)]))).snd
      = [Call.transform [Json.num 3], Call.predictCall [Json.num 3]] :=
  claim10_value_not_typechecked _ _ _ _ _ rfl

end AiDoctorMl
